import Mathlib

/-!
Verification of the `aks-storage.py` orchestration script.

This file gives a shallow embedding of the script's pure decision logic:
the configuration record with its derived names and shared-key default
(`Config.__init__`), the keyless-support computation, the CLI flag
resolution and use-case selection of `main`, the per-step command result
checking, the storage-account creation retry loop, the temporary manifest
handling of the `kubectl apply` wrappers, and the job-wait tail of the
storage configuration steps.  External commands are modelled by their
observable results (`CmdResult`); randomness (the 6-character unique id)
is modelled by an explicit parameter standing for the generated token.
-/

namespace AksStorage

/-- `StorageType` enum (src/aks-storage.py lines 203-205). -/
inductive StorageType where
  | BLOB
  | FILE
  deriving DecidableEq, Repr, Fintype

/-- `ProvisionType` enum (src/aks-storage.py lines 208-210). -/
inductive ProvisionType where
  | PERSISTENT
  | DYNAMIC
  deriving DecidableEq, Repr, Fintype

/-- First `n` characters of a string: shallow embedding of the Python slice
`s[:n]` (character based, as in Python). -/
def strTake (s : String) (n : Nat) : String := ⟨s.data.take n⟩

/-- Shallow embedding of Python `s.replace("-", "")` as used at line 242:
with the single-character pattern `"-"` this deletes every hyphen of `s`. -/
def stripHyphens (s : String) : String := ⟨s.data.filter (fun c => c != '-')⟩

/-- Shallow embedding of Python `s.strip()`: removes leading and trailing
whitespace. The script only ever tests the truthiness (non-emptiness) of the
stripped text. -/
def strStrip (s : String) : String :=
  ⟨((s.data.dropWhile Char.isWhitespace).reverse.dropWhile Char.isWhitespace).reverse⟩

/-- The configuration record (src/aks-storage.py lines 214-226), after
`__init__` has filled in every field. -/
structure Config where
  group : String
  storage_type : StorageType
  provision_type : ProvisionType
  location : String
  unique_id : String
  resource_group : String
  storage_account : String
  identity_name : String
  cluster_name : String
  allow_shared_key_access : Bool
  deriving DecidableEq, Repr

/-- Shallow embedding of `Config.__init__` (src/aks-storage.py lines 228-259).
`storage_type`/`provision_type` are `Option`s to model `data.setdefault`;
the string fields default to `""` in the model's callers, and the source's
`if not self.x:` tests are emptiness tests on those strings.
`allow_shared_key_access` is `Option Bool` to model the `None` default.
`gen_id` stands for the 6-character random token produced by
`random.choices` when `unique_id` is empty (randomness is external). -/
def Config.init (group : String) (storage_type : Option StorageType)
    (provision_type : Option ProvisionType) (location : Option String)
    (unique_id : String) (resource_group : String) (storage_account : String)
    (identity_name : String) (cluster_name : String)
    (allow_shared_key_access : Option Bool) (gen_id : String) : Config :=
  let storage_type := storage_type.getD StorageType.BLOB
  let provision_type := provision_type.getD ProvisionType.PERSISTENT
  let location := location.getD "centralus"
  let unique_id := if unique_id = "" then gen_id else unique_id
  let resource_group :=
    if resource_group = "" then group ++ "-" ++ unique_id ++ "-rg" else resource_group
  let storage_account :=
    if storage_account = "" then
      strTake (stripHyphens (group ++ unique_id ++ "sa")) 24
    else storage_account
  let identity_name :=
    if identity_name = "" then group ++ "-" ++ unique_id ++ "-identity" else identity_name
  let cluster_name :=
    if cluster_name = "" then group ++ "-" ++ unique_id ++ "-aks" else cluster_name
  let allow_shared_key_access :=
    match allow_shared_key_access with
    | some b => b
    | none =>
      if storage_type = StorageType.BLOB ∧ provision_type = ProvisionType.PERSISTENT
      then false
      else true
  { group := group, storage_type := storage_type, provision_type := provision_type
  , location := location, unique_id := unique_id, resource_group := resource_group
  , storage_account := storage_account, identity_name := identity_name
  , cluster_name := cluster_name, allow_shared_key_access := allow_shared_key_access }

/-- Keyless-support computation of single-case mode (src/aks-storage.py lines
2018-2026): true exactly when storage is Blob, provisioning is Persistent and
`allow_shared_key_access` is false. -/
def keyless_support_single (storage : StorageType) (provision : ProvisionType)
    (allow_shared_key_access : Bool) : Bool :=
  if storage = StorageType.BLOB ∧ provision = ProvisionType.PERSISTENT ∧
      allow_shared_key_access = false
  then true
  else false

/-- Keyless-support computation of the multi-case loop (src/aks-storage.py
lines 1819-1828), evaluated per use case. -/
def keyless_support_case (case_storage : StorageType) (case_provision : ProvisionType)
    (allow_shared_key_access : Bool) : Bool :=
  if case_storage = StorageType.BLOB ∧ case_provision = ProvisionType.PERSISTENT ∧
      allow_shared_key_access = false
  then true
  else false

/-- Single-case mode configuration construction (src/aks-storage.py lines
2047-2053): `Config(group=group, storage_type=storage, provision_type=provision,
allow_shared_key_access=allow_shared_key_access)` where line 1576 computes
`allow_shared_key_access = not disable_shared_key`. -/
def main_single_config (group : String) (storage : StorageType)
    (provision : ProvisionType) (disable_shared_key : Bool) (gen_id : String) : Config :=
  Config.init group (some storage) (some provision) none "" "" "" "" ""
    (some (!disable_shared_key)) gen_id

/-- The mode flags `main` computes from the CLI options (src/aks-storage.py
lines 1580-1629), together with the storage/provision values after the
defaulting at lines 1622-1629. -/
structure FlagResolution where
  storage : Option StorageType
  provision : Option ProvisionType
  run_all_cases : Bool
  run_all_storage_types : Bool
  run_all_provision_types : Bool
  deriving DecidableEq, Repr, Fintype

/-- Shallow embedding of the flag validation and mode resolution of `main`
(src/aks-storage.py lines 1580-1629).  `Except.error 1` models
`raise typer.Exit(code=1)`; it occurs before any `AzureManager` is
constructed, i.e. before any provisioning call. -/
def resolve_flags (storage : Option StorageType) (provision : Option ProvisionType)
    (disable_shared_key : Bool) : Except Nat FlagResolution :=
  if disable_shared_key then
    if storage.isSome ∧ storage ≠ some StorageType.BLOB then Except.error 1
    else if provision.isSome ∧ provision ≠ some ProvisionType.PERSISTENT then Except.error 1
    else
      Except.ok
        { storage := some StorageType.BLOB, provision := some ProvisionType.PERSISTENT
        , run_all_cases := false, run_all_storage_types := false
        , run_all_provision_types := false }
  else
    let run_all_cases := storage.isNone ∧ provision.isNone
    let run_all_storage_types := storage.isNone ∧ provision.isSome
    let run_all_provision_types := storage.isSome ∧ provision.isNone
    let storage :=
      if storage.isNone ∧ provision.isSome then some StorageType.BLOB else storage
    let provision :=
      if provision.isNone ∧ storage.isSome then some ProvisionType.PERSISTENT else provision
    Except.ok
      { storage := storage, provision := provision
      , run_all_cases := run_all_cases, run_all_storage_types := run_all_storage_types
      , run_all_provision_types := run_all_provision_types }

/-- The multi-case branch condition of `main` (src/aks-storage.py line 1632). -/
def multi_mode (r : FlagResolution) : Bool :=
  r.run_all_cases || r.run_all_storage_types || r.run_all_provision_types

/-- Single-case mode's final defaulting of the use case (src/aks-storage.py
lines 1995-1998). -/
def single_case_of (r : FlagResolution) : StorageType × ProvisionType :=
  (r.storage.getD StorageType.BLOB, r.provision.getD ProvisionType.PERSISTENT)

/-- One use case of the multi-case runner (src/aks-storage.py lines 1668-1689). -/
structure UseCase where
  storage : StorageType
  provision : ProvisionType
  name : String
  deriving DecidableEq, Repr

/-- The `all_use_cases` list (src/aks-storage.py lines 1668-1689). -/
def all_use_cases : List UseCase :=
  [ { storage := StorageType.BLOB, provision := ProvisionType.PERSISTENT, name := "Blob-Static" }
  , { storage := StorageType.BLOB, provision := ProvisionType.DYNAMIC, name := "Blob-Dynamic" }
  , { storage := StorageType.FILE, provision := ProvisionType.PERSISTENT, name := "File-Static" }
  , { storage := StorageType.FILE, provision := ProvisionType.DYNAMIC, name := "File-Dynamic" } ]

/-- Use-case filtering of the multi-case runner (src/aks-storage.py lines
1691-1703): starts from the empty list and fills it according to the mode. -/
def select_use_cases (r : FlagResolution) : List UseCase :=
  if r.run_all_cases then all_use_cases
  else if r.run_all_storage_types then
    all_use_cases.filter (fun c => some c.provision == r.provision)
  else if r.run_all_provision_types then
    all_use_cases.filter (fun c => some c.storage == r.storage)
  else []

/-- Decidable equality on `Except`, used to settle concrete runs of the
flag-resolution model by computation. -/
instance {ε α : Type} [DecidableEq ε] [DecidableEq α] : DecidableEq (Except ε α) := fun a b =>
  match a, b with
  | Except.ok x, Except.ok y =>
    if h : x = y then Decidable.isTrue (by rw [h])
    else Decidable.isFalse (fun hc => h (Except.ok.inj hc))
  | Except.error x, Except.error y =>
    if h : x = y then Decidable.isTrue (by rw [h])
    else Decidable.isFalse (fun hc => h (Except.error.inj hc))
  | Except.ok _, Except.error _ => Decidable.isFalse (fun hc => Except.noConfusion hc)
  | Except.error _, Except.ok _ => Decidable.isFalse (fun hc => Except.noConfusion hc)

/-- The observable result of an external command invocation: the
`subprocess.CompletedProcess` fields the script inspects. -/
structure CmdResult where
  returncode : Int
  stdout : String
  stderr : String
  deriving DecidableEq, Repr

/-- Shallow embedding of `display_command_result` (src/aks-storage.py lines
163-196): on `returncode = 0` it prints and returns; on any non-zero exit it
raises `typer.Exit(code=1)`, modelled as `Except.error 1`. -/
def display_command_result (result : CmdResult) : Except Nat Unit :=
  if result.returncode = 0 then Except.ok () else Except.error 1

/-- Shallow embedding of `configure_workload_identity` (src/aks-storage.py
lines 1010-1090) as a function of the two external command results it is given:
the `kubectl apply` of the ServiceAccount manifest (checked: non-zero exit
raises `typer.Exit(code=1)` at line 1064) and the
`az identity federated-credential create` call (lines 1066-1088), whose
returned `CompletedProcess` is bound to no variable and never inspected before
the function prints success and returns. -/
def configure_workload_identity (apply_result : CmdResult)
    (fed_credential_result : CmdResult) : Except Nat Unit :=
  if apply_result.returncode = 0 then
    let _ := fed_credential_result
    Except.ok ()
  else
    Except.error 1

/-- Whether one storage-account creation attempt succeeded (src/aks-storage.py
line 622): `returncode == 0 and stdout.strip()`. -/
def attempt_ok (r : CmdResult) : Bool :=
  r.returncode == 0 && strStrip r.stdout != ""

/-- `max_retries` of the storage-account creation loop (src/aks-storage.py
line 583). -/
def max_retries : Nat := 3

/-- What the storage-account creation path did, observably: whether an
existing account was reused, how many `az storage account create` attempts
ran, how many `time.sleep(5)` pauses happened, and whether the final
`raise Exception(...)` at line 635 fired. -/
structure StorageCreateTrace where
  reused : Bool
  attempts_made : Nat
  sleeps : Nat
  raised : Bool
  deriving DecidableEq, Repr

/-- The `while retry_count < max_retries and not success` loop of
`create_storage_account` (src/aks-storage.py lines 583-631), by recursion on
the remaining tries (`retry_count` increments exactly once per failed
iteration, and the loop stops at the first success).  `attempts k` is the
result of the `k`-th `az storage account create` invocation.  Returns
(attempts made, sleeps performed, success); a sleep happens after a failed
attempt only when `retry_count < max_retries` still holds (line 627), i.e.
when tries remain. -/
def storage_create_go (attempts : Nat → CmdResult) : Nat → Nat → Nat × Nat × Bool
  | _, 0 => (0, 0, false)
  | rc, Nat.succ n =>
    if attempt_ok (attempts rc) then (1, 0, true)
    else
      let rest := storage_create_go attempts (rc + 1) n
      (1 + rest.1, (if 0 < n then 1 else 0) + rest.2.1, rest.2.2)

/-- Shallow embedding of the creation part of `create_storage_account`
(src/aks-storage.py lines 536-637): the existence pre-check at lines 539-560
(truthy when `returncode == 0 and stdout.strip()`) reuses the account with no
creation attempt; otherwise the retry loop runs and the function raises only
if all attempts failed (lines 633-637). -/
def create_storage_account (check_exists : CmdResult)
    (attempts : Nat → CmdResult) : StorageCreateTrace :=
  if check_exists.returncode = 0 ∧ strStrip check_exists.stdout ≠ "" then
    { reused := true, attempts_made := 0, sleeps := 0, raised := false }
  else
    let r := storage_create_go attempts 0 max_retries
    { reused := false, attempts_made := r.1, sleeps := r.2.1, raised := !r.2.2 }

/-- One `kubectl apply` of a PV / PVC / Job manifest inside
`configure_static_storage` (src/aks-storage.py lines 1264-1304) and
`configure_dynamic_storage` (lines 1445-1485): a temp manifest file is
written, `kubectl apply -f` runs, a non-zero exit raises `typer.Exit(code=1)`
before the `os.unlink` at line 1304/1485 is reached, and a zero exit reaches
the `os.unlink`.  The second component records whether the temp file was
deleted. -/
def apply_manifest_storage (apply_result : CmdResult) : Except Nat Unit × Bool :=
  if apply_result.returncode = 0 then (Except.ok (), true)
  else (Except.error 1, false)

/-- The ServiceAccount manifest apply of `configure_workload_identity`
(src/aks-storage.py lines 1028-1064): a temp manifest file is written with
`delete=False`, `kubectl apply -f` runs, a non-zero exit raises
`typer.Exit(code=1)`; the function contains no `os.unlink`, so the temp file
is deleted on no path.  The second component records whether the temp file
was deleted. -/
def apply_manifest_service_account (apply_result : CmdResult) : Except Nat Unit × Bool :=
  if apply_result.returncode = 0 then (Except.ok (), false)
  else (Except.error 1, false)

/-- Observable behaviour of the tail of `configure_static_storage`
(src/aks-storage.py lines 1306-1341) and `configure_dynamic_storage`
(lines 1487-1527) after the manifests applied: whether an exception was
raised and whether the `kubectl logs` fetch was reached. -/
structure StorageConfigTail where
  raised : Bool
  logs_fetched : Bool
  deriving DecidableEq, Repr

/-- The `kubectl wait --for=condition=complete` handling shared by
`configure_static_storage` (lines 1312-1327, timeout 60s) and
`configure_dynamic_storage` (lines 1497-1512, timeout 120s): on a non-zero
exit of the wait command the function prints a message and executes a plain
`return` — no exception — skipping the log fetch; on a zero exit it proceeds
to `kubectl logs`. -/
def configure_storage_wait (wait_result : CmdResult) : StorageConfigTail :=
  if wait_result.returncode ≠ 0 then { raised := false, logs_fetched := false }
  else { raised := false, logs_fetched := true }

/-- Whether the body of one multi-case iteration raised an exception
(any `Exception`, including `typer.Exit`, is caught by the
`except Exception` at line 1960). -/
inductive CaseOutcome where
  | success
  | raises
  deriving DecidableEq, Repr

/-- One row of the final summary table (src/aks-storage.py lines 1956-1970). -/
structure CaseResult where
  name : String
  success : Bool
  keyless : Bool
  deriving DecidableEq, Repr

/-- A `CaseOutcome` from the observable tail of a storage configuration step:
`configure_storage_wait` raising nothing means the use case body completed. -/
def outcome_of_tail (t : StorageConfigTail) : CaseOutcome :=
  if t.raised then CaseOutcome.raises else CaseOutcome.success

/-- One iteration of the multi-case loop (src/aks-storage.py lines 1814-1970):
keyless support is computed for the case (lines 1819-1828), the case body runs
inside `try`, and the `except Exception` handler (lines 1960-1970) records a
failed row instead of propagating. -/
def run_one_case (allow_shared_key_access : Bool) (outcome : UseCase → CaseOutcome)
    (c : UseCase) : CaseResult :=
  let keyless := keyless_support_case c.storage c.provision allow_shared_key_access
  match outcome c with
  | CaseOutcome.success => { name := c.name, success := true, keyless := keyless }
  | CaseOutcome.raises => { name := c.name, success := false, keyless := keyless }

/-- The `for i, case in enumerate(use_cases, 1)` loop (src/aks-storage.py
lines 1814-1970): every selected case is attempted in order, each appending
exactly one row, regardless of earlier failures. -/
def run_use_cases (allow_shared_key_access : Bool) (outcome : UseCase → CaseOutcome) :
    List UseCase → List CaseResult
  | [] => []
  | c :: rest =>
    run_one_case allow_shared_key_access outcome c ::
      run_use_cases allow_shared_key_access outcome rest

/-- The multi-case branch of `main` after use-case selection (src/aks-storage.py
lines 1723-1990): the shared-infrastructure setup runs inside the outer `try`
(its failure hits the handler at lines 1986-1990, `typer.Exit(code=1)`);
otherwise the per-case loop runs to completion, the summary table is printed,
and `main` returns normally. -/
def multi_case_main (setup_ok : Bool) (allow_shared_key_access : Bool)
    (outcome : UseCase → CaseOutcome) (cases : List UseCase) :
    Except Nat (List CaseResult) :=
  if setup_ok then Except.ok (run_use_cases allow_shared_key_access outcome cases)
  else Except.error 1

/-- The process exit code of the multi-case branch: `typer.Exit(code=1)` on a
setup failure, normal return (exit code 0) otherwise — individual case
failures are reported in the table, not propagated. -/
def multi_case_exit (setup_ok : Bool) (allow_shared_key_access : Bool)
    (outcome : UseCase → CaseOutcome) (cases : List UseCase) : Nat :=
  match multi_case_main setup_ok allow_shared_key_access outcome cases with
  | Except.ok _ => 0
  | Except.error n => n

/-- The first `n` characters of a string are at most `n` characters. -/
theorem strTake_length_le (s : String) (n : Nat) : (strTake s n).length ≤ n := by
  show (s.data.take n).length ≤ n
  rw [List.length_take]
  exact Nat.min_le_left _ _

/-- Stripping hyphens leaves no hyphen. -/
theorem stripHyphens_no_hyphen (s : String) : ∀ c ∈ (stripHyphens s).data, c ≠ '-' := by
  intro c hc
  simp only [stripHyphens, List.mem_filter] at hc
  simpa using hc.2

/-- C1: keyless support is computed as true if and only if the storage type is
Blob, the provision type is Persistent, and `allow_shared_key_access` is
false; for every other combination it is false, and the single-case and
multi-case computations agree. -/
theorem c1_keyless_support_iff (s : StorageType) (p : ProvisionType) (a : Bool) :
    (keyless_support_single s p a = true ↔
      s = StorageType.BLOB ∧ p = ProvisionType.PERSISTENT ∧ a = false) ∧
    keyless_support_case s p a = keyless_support_single s p a := by
  cases s <;> cases p <;> cases a <;>
    simp [keyless_support_single, keyless_support_case]

/-- C2 counterexample: a single-case run with `group="poc"`, storage Blob,
provision Persistent and `disable_shared_key=false` produces
`allow_shared_key_access = True`, not the claimed `False`: `main` passes
`allow_shared_key_access = not disable_shared_key` explicitly, so the
`Config` default never applies on this path. -/
theorem c2_counterexample :
    (main_single_config "poc" StorageType.BLOB ProvisionType.PERSISTENT false
        "ab12cd").allow_shared_key_access = true ∧
    ¬ (main_single_config "poc" StorageType.BLOB ProvisionType.PERSISTENT false
        "ab12cd").allow_shared_key_access = false := by
  constructor
  · rfl
  · intro h; cases h

/-- C2 (amended): when the `Config` field `allow_shared_key_access` is not
explicitly supplied (is `None`), it defaults to false if and only if storage
is Blob and provision is Persistent; but `main` always supplies it explicitly
as `not disable_shared_key`, so a run with `disable_shared_key=false` yields
`allow_shared_key_access = True` for every combination, including
Blob+Persistent. -/
theorem c2_shared_key_default_amended (group uid gen : String) (st : StorageType)
    (pv : ProvisionType) (dsk : Bool) :
    ((Config.init group (some st) (some pv) none uid "" "" "" "" none
        gen).allow_shared_key_access = false ↔
      st = StorageType.BLOB ∧ pv = ProvisionType.PERSISTENT) ∧
    (main_single_config group st pv dsk gen).allow_shared_key_access = !dsk := by
  constructor
  · cases st <;> cases pv <;> simp [Config.init]
  · cases dsk <;> rfl

/-- C3: with `--disable-shared-key`, an explicit `--storage File` or
`--provision Dynamic` makes flag resolution fail with exit code 1 (before any
provisioning call); when resolution succeeds the use case is forced to
(Blob, Persistent) and no multi-case mode flag is set. -/
theorem c3_disable_shared_key_validation :
    (∀ p, resolve_flags (some StorageType.FILE) p true = Except.error 1) ∧
    (∀ s, resolve_flags s (some ProvisionType.DYNAMIC) true = Except.error 1) ∧
    (∀ s p r, resolve_flags s p true = Except.ok r →
      multi_mode r = false ∧
      single_case_of r = (StorageType.BLOB, ProvisionType.PERSISTENT)) := by
  decide

/-- C3 witness: `--disable-shared-key --storage File` fails with exit code 1,
and `--disable-shared-key` alone resolves to the single Blob+Persistent case. -/
theorem c3_witness :
    resolve_flags (some StorageType.FILE) none true = Except.error 1 ∧
    multi_mode
        { storage := some StorageType.BLOB, provision := some ProvisionType.PERSISTENT
        , run_all_cases := false, run_all_storage_types := false
        , run_all_provision_types := false } = false ∧
    single_case_of
        { storage := some StorageType.BLOB, provision := some ProvisionType.PERSISTENT
        , run_all_cases := false, run_all_storage_types := false
        , run_all_provision_types := false } =
      (StorageType.BLOB, ProvisionType.PERSISTENT) := by
  refine ⟨c3_disable_shared_key_validation.1 none, ?_⟩
  exact c3_disable_shared_key_validation.2.2 none none _ (by decide)

/-- C5: without `--disable-shared-key`, supplying only storage selects exactly
the two use cases with that storage (provision ranging over both values),
supplying only provision selects exactly the two with that provision, and
supplying neither selects exactly the four cases of the cross product. -/
theorem c5_use_case_selection :
    (∀ st : StorageType,
      (resolve_flags (some st) none false).map
          (fun r => (select_use_cases r).map (fun c => (c.storage, c.provision))) =
        Except.ok [(st, ProvisionType.PERSISTENT), (st, ProvisionType.DYNAMIC)]) ∧
    (∀ pv : ProvisionType,
      (resolve_flags none (some pv) false).map
          (fun r => (select_use_cases r).map (fun c => (c.storage, c.provision))) =
        Except.ok [(StorageType.BLOB, pv), (StorageType.FILE, pv)]) ∧
    (resolve_flags none none false).map
        (fun r => (select_use_cases r).map (fun c => (c.storage, c.provision))) =
      Except.ok
        [ (StorageType.BLOB, ProvisionType.PERSISTENT)
        , (StorageType.BLOB, ProvisionType.DYNAMIC)
        , (StorageType.FILE, ProvisionType.PERSISTENT)
        , (StorageType.FILE, ProvisionType.DYNAMIC) ] := by
  refine ⟨?_, ?_, rfl⟩
  · intro st; cases st <;> rfl
  · intro pv; cases pv <;> rfl

/-- C4: for every group and every supplied (nonempty) unique identifier, the
derived names depend on the group and identifier alone — the storage/provision
pair and the random token are irrelevant — with resource group
`<group>-<id>-rg`, identity `<group>-<id>-identity`, cluster
`<group>-<id>-aks`, and the storage account obtained by stripping hyphens
from `<group><id>sa` and truncating, hence at most 24 characters and
hyphen-free. -/
theorem c4_derived_names (group uid gen gen2 : String) (st st2 : StorageType)
    (pv pv2 : ProvisionType) (a : Option Bool) (h : uid ≠ "") :
    (Config.init group (some st) (some pv) none uid "" "" "" "" a gen).resource_group
        = group ++ "-" ++ uid ++ "-rg" ∧
    (Config.init group (some st) (some pv) none uid "" "" "" "" a gen).identity_name
        = group ++ "-" ++ uid ++ "-identity" ∧
    (Config.init group (some st) (some pv) none uid "" "" "" "" a gen).cluster_name
        = group ++ "-" ++ uid ++ "-aks" ∧
    (Config.init group (some st) (some pv) none uid "" "" "" "" a gen).storage_account
        = strTake (stripHyphens (group ++ uid ++ "sa")) 24 ∧
    (Config.init group (some st) (some pv) none uid "" "" "" "" a
        gen).storage_account.length ≤ 24 ∧
    (∀ c ∈ (Config.init group (some st) (some pv) none uid "" "" "" "" a
        gen).storage_account.data, c ≠ '-') ∧
    (Config.init group (some st) (some pv) none uid "" "" "" "" a gen).resource_group
        = (Config.init group (some st2) (some pv2) none uid "" "" "" "" a
            gen2).resource_group ∧
    (Config.init group (some st) (some pv) none uid "" "" "" "" a gen).storage_account
        = (Config.init group (some st2) (some pv2) none uid "" "" "" "" a
            gen2).storage_account ∧
    (Config.init group (some st) (some pv) none uid "" "" "" "" a gen).identity_name
        = (Config.init group (some st2) (some pv2) none uid "" "" "" "" a
            gen2).identity_name ∧
    (Config.init group (some st) (some pv) none uid "" "" "" "" a gen).cluster_name
        = (Config.init group (some st2) (some pv2) none uid "" "" "" "" a
            gen2).cluster_name := by
  have hsa : (Config.init group (some st) (some pv) none uid "" "" "" "" a
      gen).storage_account = strTake (stripHyphens (group ++ uid ++ "sa")) 24 := by
    simp [Config.init, h]
  refine ⟨by simp [Config.init, h], by simp [Config.init, h], by simp [Config.init, h],
    hsa, ?_, ?_, by simp [Config.init, h], by simp [Config.init, h],
    by simp [Config.init, h], by simp [Config.init, h]⟩
  · rw [hsa]; exact strTake_length_le _ 24
  · rw [hsa]
    intro c hc
    have hc' : c ∈ (stripHyphens (group ++ uid ++ "sa")).data :=
      List.take_subset 24 _ hc
    exact stripHyphens_no_hyphen _ c hc'

/-- C4 witness: concrete derived resource-group name for
`group="poc"`, `unique_id="ab12cd"`. -/
theorem c4_witness :
    (Config.init "poc" (some StorageType.BLOB) (some ProvisionType.PERSISTENT) none
        "ab12cd" "" "" "" "" none "zzzzzz").resource_group =
      "poc" ++ "-" ++ "ab12cd" ++ "-rg" :=
  (c4_derived_names "poc" "ab12cd" "zzzzzz" "yyyyyy" StorageType.BLOB StorageType.FILE
    ProvisionType.PERSISTENT ProvisionType.DYNAMIC none (by decide)).1

/-- C6: in multi-case mode with successful shared setup, the loop records one
summary row per selected use case in order, a case whose body raises is
recorded as a failed row while every other case is still attempted, and the
process exit code is 0 regardless of individual case failures. -/
theorem c6_multi_case_isolation (allow : Bool) (outcome : UseCase → CaseOutcome)
    (cases : List UseCase) :
    multi_case_exit true allow outcome cases = 0 ∧
    run_use_cases allow outcome cases = cases.map (run_one_case allow outcome) ∧
    multi_case_main true allow outcome cases =
      Except.ok (cases.map (run_one_case allow outcome)) ∧
    (∀ c ∈ cases, outcome c = CaseOutcome.raises →
      (run_one_case allow outcome c).success = false ∧
      run_one_case allow outcome c ∈ run_use_cases allow outcome cases) := by
  have hmap : ∀ l : List UseCase,
      run_use_cases allow outcome l = l.map (run_one_case allow outcome) := by
    intro l
    induction l with
    | nil => rfl
    | cons c rest ih => simp [run_use_cases, ih]
  refine ⟨by simp [multi_case_exit, multi_case_main], hmap cases,
    by simp [multi_case_main, hmap cases], ?_⟩
  intro c hc hr
  refine ⟨by simp [run_one_case, hr], ?_⟩
  rw [hmap cases]
  exact List.mem_map_of_mem _ hc

/-- C6 witness: with every case body raising, the four-case run still exits
with code 0 and records the first case as a failed row. -/
theorem c6_witness :
    multi_case_exit true true (fun _ => CaseOutcome.raises) all_use_cases = 0 ∧
    (run_one_case true (fun _ => CaseOutcome.raises)
        { storage := StorageType.BLOB, provision := ProvisionType.PERSISTENT
        , name := "Blob-Static" }).success = false := by
  have h := c6_multi_case_isolation true (fun _ => CaseOutcome.raises) all_use_cases
  refine ⟨h.1, ?_⟩
  exact (h.2.2.2 _ (by simp [all_use_cases]) rfl).1

/-- C7 counterexample: in `configure_workload_identity` a non-zero exit of the
`az identity federated-credential create` call does not abort the run — the
step returns normally, so the claimed pass/fail check on this invocation does
not exist. -/
theorem c7_counterexample :
    configure_workload_identity { returncode := 0, stdout := "", stderr := "" }
        { returncode := 1, stdout := "", stderr := "err" } = Except.ok () ∧
    configure_workload_identity { returncode := 0, stdout := "", stderr := "" }
        { returncode := 1, stdout := "", stderr := "err" } ≠ Except.error 1 :=
  ⟨rfl, fun hc => Except.noConfusion hc⟩

/-- C7 (amended): every step invocation wrapped with `display_command_result`
aborts the run with exit code 1 on any non-zero exit; but in the
workload-identity step only the ServiceAccount `kubectl apply` is checked —
the federated-identity-credential creation's result is never inspected, so
(besides the retrying storage-account creation) it is a second exception to
the abort-on-failure rule. -/
theorem c7_step_check_amended (r fed : CmdResult) :
    (display_command_result r = Except.ok () ↔ r.returncode = 0) ∧
    (r.returncode ≠ 0 → display_command_result r = Except.error 1) ∧
    configure_workload_identity r fed = display_command_result r := by
  refine ⟨?_, ?_, ?_⟩
  · by_cases h : r.returncode = 0 <;> simp [display_command_result, h]
  · intro h; simp [display_command_result, h]
  · by_cases h : r.returncode = 0 <;>
      simp [display_command_result, configure_workload_identity, h]

/-- C7 witness: a command exiting with code 2 makes the checked wrapper abort
with exit code 1. -/
theorem c7_witness :
    display_command_result { returncode := 2, stdout := "", stderr := "" } =
      Except.error 1 :=
  (c7_step_check_amended { returncode := 2, stdout := "", stderr := "" }
    { returncode := 0, stdout := "", stderr := "" }).2.1 (by decide)

/-- C8: storage-account creation first pre-checks existence and reuses the
account with no creation attempt; otherwise it makes at least one and at most
three attempts, sleeps exactly once between consecutive attempts
(`sleeps + 1 = attempts`), and raises a failure exactly when all three
attempts fail. -/
theorem c8_storage_account_retry (check : CmdResult) (att : Nat → CmdResult) :
    (check.returncode = 0 ∧ strStrip check.stdout ≠ "" →
      (create_storage_account check att).reused = true ∧
      (create_storage_account check att).attempts_made = 0 ∧
      (create_storage_account check att).raised = false) ∧
    (¬(check.returncode = 0 ∧ strStrip check.stdout ≠ "") →
      (create_storage_account check att).reused = false ∧
      1 ≤ (create_storage_account check att).attempts_made ∧
      (create_storage_account check att).attempts_made ≤ max_retries ∧
      (create_storage_account check att).sleeps + 1 =
        (create_storage_account check att).attempts_made ∧
      ((create_storage_account check att).raised = true ↔
        attempt_ok (att 0) = false ∧ attempt_ok (att 1) = false ∧
          attempt_ok (att 2) = false)) := by
  constructor
  · intro h; simp [create_storage_account, h]
  · intro h
    simp only [create_storage_account, if_neg h]
    by_cases h0 : attempt_ok (att 0) <;> by_cases h1 : attempt_ok (att 1) <;>
      by_cases h2 : attempt_ok (att 2) <;>
        simp [storage_create_go, max_retries, h0, h1, h2]

/-- C8 witness: with no existing account and every creation attempt failing,
the step raises after the three attempts. -/
theorem c8_witness :
    (create_storage_account { returncode := 1, stdout := "", stderr := "boom" }
        (fun _ => { returncode := 1, stdout := "", stderr := "boom" })).raised = true := by
  have h := (c8_storage_account_retry
    { returncode := 1, stdout := "", stderr := "boom" }
    (fun _ => { returncode := 1, stdout := "", stderr := "boom" })).2 (by decide)
  exact h.2.2.2.2.mpr (by decide)

/-- C9 counterexample: the ServiceAccount manifest apply of
`configure_workload_identity` succeeds without ever deleting its temporary
manifest file, so it is not true that every manifest apply deletes its
temporary file immediately after use. -/
theorem c9_counterexample :
    apply_manifest_service_account { returncode := 0, stdout := "", stderr := "" } =
      (Except.ok (), false) ∧
    ¬ (apply_manifest_service_account
        { returncode := 0, stdout := "", stderr := "" }).2 = true :=
  ⟨rfl, fun hc => Bool.noConfusion hc⟩

/-- C9 (amended): the PV / PVC / Job applies of the storage-configuration
steps delete their temporary manifest file immediately after a successful
apply, and an apply failure raises `typer.Exit(code=1)` without deleting that
file or cleaning up already-created cluster objects; the ServiceAccount
manifest file of the workload-identity step, however, is deleted on no path. -/
theorem c9_manifest_cleanup_amended (r : CmdResult) :
    (r.returncode = 0 → apply_manifest_storage r = (Except.ok (), true)) ∧
    (r.returncode ≠ 0 → apply_manifest_storage r = (Except.error 1, false) ∧
      apply_manifest_service_account r = (Except.error 1, false)) ∧
    (apply_manifest_service_account r).2 = false := by
  refine ⟨?_, ?_, ?_⟩
  · intro h; simp [apply_manifest_storage, h]
  · intro h; simp [apply_manifest_storage, apply_manifest_service_account, h]
  · by_cases h : r.returncode = 0 <;> simp [apply_manifest_service_account, h]

/-- C9 witness: a successful storage-manifest apply returns normally and
deletes its temporary file. -/
theorem c9_witness :
    apply_manifest_storage { returncode := 0, stdout := "", stderr := "" } =
      (Except.ok (), true) :=
  (c9_manifest_cleanup_amended { returncode := 0, stdout := "", stderr := "" }).1 rfl

/-- C10: when the `kubectl wait` of a storage-configuration step exits
non-zero, the step prints a message and returns normally without raising
(skipping the log fetch), so in multi-case mode the affected use case is still
recorded as a successful row. -/
theorem c10_wait_timeout_tolerated (wait : CmdResult) (h : wait.returncode ≠ 0)
    (allow : Bool) (c : UseCase) :
    configure_storage_wait wait = { raised := false, logs_fetched := false } ∧
    outcome_of_tail (configure_storage_wait wait) = CaseOutcome.success ∧
    (run_one_case allow (fun _ => outcome_of_tail (configure_storage_wait wait))
      c).success = true := by
  have e : configure_storage_wait wait = { raised := false, logs_fetched := false } := by
    simp [configure_storage_wait, h]
  refine ⟨e, ?_, ?_⟩
  · rw [e]; rfl
  · rw [e]; rfl

/-- C10 witness: a timed-out wait in the Blob+Persistent use case still yields
a successful summary row. -/
theorem c10_witness :
    (run_one_case true
        (fun _ => outcome_of_tail (configure_storage_wait
          { returncode := 1, stdout := "", stderr := "timed out" }))
        { storage := StorageType.BLOB, provision := ProvisionType.PERSISTENT
        , name := "Blob-Static" }).success = true :=
  (c10_wait_timeout_tolerated { returncode := 1, stdout := "", stderr := "timed out" }
    (by decide) true
    { storage := StorageType.BLOB, provision := ProvisionType.PERSISTENT
    , name := "Blob-Static" }).2.2

end AksStorage
